import Mathlib

/-!
Verification of the anomaly-detection pipeline of the rail-track-monitoring
repository (`backend/detector.py`, `backend/models.py`, `backend/app.py`).

Numeric model: Python floats are modelled by exact rationals (`ℚ`); all the
constants involved (0.05, 0.03, 0.4, 0.015, 0.7, 0.01, 100) are exact in this
model and the branch comparisons of the source only ever compare such
constants, so the rational model is faithful to the branch structure of the
code. Machine-time values (`processing_time`) are outside the model.
-/

/-- Embedding of `RailwayDetector._calculate_criticality`
(`backend/detector.py`, lines 178-198).  The Python method takes
`anomalies_count` and `image_size` and returns a float built by the
`if/elif/elif/else` chain; `image_size` is an argument of the method but is
never mentioned in its body. -/
def calculate_criticality (anomalies_count : ℕ) (image_size : ℕ) : ℚ :=
  if anomalies_count = 0 then 0.0
  else if anomalies_count ≤ 10 then 0.05 + (anomalies_count : ℚ) * 0.03
  else if anomalies_count ≤ 30 then 0.4 + ((anomalies_count : ℚ) - 10) * 0.015
  else min (0.7 + ((anomalies_count : ℚ) - 30) * 0.01) 1.0

/-- The low-range linear piece named by the spec: `0.05 + 0.03 * n`
(spec §4.5, used for `1 ≤ n ≤ 10`), extended to a function on all of `ℚ`
so that agreement of adjacent pieces at a breakpoint can be stated. -/
def pieceLow (x : ℚ) : ℚ := 0.05 + 0.03 * x

/-- The mid-range linear piece named by the spec: `0.4 + 0.015 * (n - 10)`
(spec §4.5, used for `11 ≤ n ≤ 30`), extended to `ℚ`. -/
def pieceMid (x : ℚ) : ℚ := 0.4 + 0.015 * (x - 10)

/-- The high-range clamped piece named by the spec:
`min(0.7 + 0.01 * (n - 30), 1.0)` (spec §4.5, used for `n ≥ 31`),
extended to `ℚ`. -/
def pieceHigh (x : ℚ) : ℚ := min (0.7 + 0.01 * (x - 30)) 1.0

/-- The zero piece of the piecewise definition: `score(0) = 0.0`. -/
def pieceZero (_x : ℚ) : ℚ := 0.0

/-- Continuity of a piecewise-linear function at the breakpoint `b` between
an incoming piece `f` and an outgoing piece `g`: the two linear pieces give
the same value at the breakpoint (for piecewise-linear functions this is
exactly continuity of the real-line extension at `b`). -/
def piecewiseContinuousAt (f g : ℚ → ℚ) (b : ℚ) : Prop := f b = g b

/-- The criticality formula exactly as the spec words it (§4.5), with the
spec's explicit range conditions; written separately from
`calculate_criticality` so that the code/spec agreement is a theorem and not
a definition. -/
def score_spec (n : ℕ) : ℚ :=
  if n = 0 then 0.0
  else if 1 ≤ n ∧ n ≤ 10 then pieceLow n
  else if 11 ≤ n ∧ n ≤ 30 then pieceMid n
  else pieceHigh n

/-- Embedding of `Inspection.get_criticality_level`
(`backend/models.py`, lines 100-107): `>= 0.7 → "high"`,
`elif >= 0.4 → "medium"`, `else "low"`. -/
def get_criticality_level (criticality_score : ℚ) : String :=
  if 0.7 ≤ criticality_score then "high"
  else if 0.4 ≤ criticality_score then "medium"
  else "low"

/-- The CRITICAL note template of `_generate_notes`, embedding the count. -/
def criticalNote (anomalies_count : ℕ) : String :=
  "CRITICAL: " ++ toString anomalies_count ++
    " anomalies détectées. Inspection immédiate recommandée."

/-- The WARNING note template of `_generate_notes`, embedding the count. -/
def warningNote (anomalies_count : ℕ) : String :=
  "WARNING: " ++ toString anomalies_count ++
    " anomalies détectées. Planifier une inspection bientôt."

/-- The INFO note template of `_generate_notes`, embedding the count. -/
def infoNote (anomalies_count : ℕ) : String :=
  "INFO: " ++ toString anomalies_count ++
    " anomalies mineures détectées. Surveiller lors de la prochaine maintenance."

/-- The fixed no-anomaly message of `_generate_notes`. -/
def okNote : String := "OK: Pas d\x27anomalies significatives détectées."

/-- Embedding of `RailwayDetector._generate_notes`
(`backend/detector.py`, lines 201-212): an `if/elif/elif/else` chain on
`criticality_score` and `anomalies_count`. -/
def generate_notes (anomalies_count : ℕ) (criticality_score : ℚ) : String :=
  if 0.7 ≤ criticality_score then criticalNote anomalies_count
  else if 0.4 ≤ criticality_score then warningNote anomalies_count
  else if 0 < anomalies_count then infoNote anomalies_count
  else okNote

lemma calculate_criticality_eq_spec (n sz : ℕ) :
    calculate_criticality n sz = score_spec n := by
  unfold calculate_criticality score_spec pieceLow pieceMid pieceHigh
  by_cases h0 : n = 0
  · simp [h0]
  by_cases h10 : n ≤ 10
  · rw [if_neg h0, if_pos h10, if_neg h0, if_pos ⟨by omega, h10⟩]; ring
  by_cases h30 : n ≤ 30
  · rw [if_neg h0, if_neg h10, if_pos h30, if_neg h0,
      if_neg (by omega : ¬(1 ≤ n ∧ n ≤ 10)), if_pos ⟨by omega, h30⟩]
    ring
  · rw [if_neg h0, if_neg h10, if_neg h30, if_neg h0,
      if_neg (by omega : ¬(1 ≤ n ∧ n ≤ 10)), if_neg (by omega : ¬(11 ≤ n ∧ n ≤ 30))]
    congr 1
    ring

lemma score_spec_eval_zero : score_spec 0 = 0.0 := rfl

lemma score_spec_eval_low (n : ℕ) (h1 : 1 ≤ n) (h2 : n ≤ 10) :
    score_spec n = pieceLow n := by
  unfold score_spec
  rw [if_neg (by omega), if_pos ⟨h1, h2⟩]

lemma score_spec_eval_mid (n : ℕ) (h1 : 11 ≤ n) (h2 : n ≤ 30) :
    score_spec n = pieceMid n := by
  unfold score_spec
  rw [if_neg (by omega), if_neg (by omega), if_pos ⟨h1, h2⟩]

lemma score_spec_eval_high (n : ℕ) (h : 31 ≤ n) :
    score_spec n = pieceHigh n := by
  unfold score_spec
  rw [if_neg (by omega), if_neg (by omega), if_neg (by omega)]

lemma pieceLow_le (n : ℕ) (h : n ≤ 10) : pieceLow n ≤ 0.35 := by
  have : (n : ℚ) ≤ 10 := by exact_mod_cast h
  unfold pieceLow; linarith

lemma pieceLow_nonneg (n : ℕ) : (0 : ℚ) ≤ pieceLow n := by
  have : (0 : ℚ) ≤ (n : ℚ) := by positivity
  unfold pieceLow; linarith

lemma pieceMid_bounds (n : ℕ) (h1 : 11 ≤ n) (h2 : n ≤ 30) :
    0.415 ≤ pieceMid n ∧ pieceMid n ≤ 0.7 := by
  have ha : (11 : ℚ) ≤ (n : ℚ) := by exact_mod_cast h1
  have hb : (n : ℚ) ≤ 30 := by exact_mod_cast h2
  unfold pieceMid; constructor <;> linarith

lemma pieceHigh_bounds (n : ℕ) (h : 31 ≤ n) :
    0.7 ≤ pieceHigh n ∧ pieceHigh n ≤ 1 := by
  have ha : (31 : ℚ) ≤ (n : ℚ) := by exact_mod_cast h
  refine ⟨le_min (by linarith) (by norm_num), ?_⟩
  calc pieceHigh n ≤ 1.0 := min_le_right _ _
    _ = 1 := by norm_num

lemma score_spec_nonneg (n : ℕ) : 0 ≤ score_spec n := by
  rcases Nat.lt_or_ge n 1 with h | h
  · interval_cases n; norm_num [score_spec_eval_zero]
  rcases Nat.lt_or_ge n 11 with h10 | h10
  · rw [score_spec_eval_low n h (by omega)]; exact pieceLow_nonneg n
  rcases Nat.lt_or_ge n 31 with h30 | h30
  · rw [score_spec_eval_mid n h10 (by omega)]
    have := (pieceMid_bounds n h10 (by omega)).1; linarith
  · rw [score_spec_eval_high n h30]
    have := (pieceHigh_bounds n h30).1; linarith

lemma score_spec_le_one (n : ℕ) : score_spec n ≤ 1 := by
  rcases Nat.lt_or_ge n 1 with h | h
  · interval_cases n; norm_num [score_spec_eval_zero]
  rcases Nat.lt_or_ge n 11 with h10 | h10
  · rw [score_spec_eval_low n h (by omega)]
    have := pieceLow_le n (by omega); linarith
  rcases Nat.lt_or_ge n 31 with h30 | h30
  · rw [score_spec_eval_mid n h10 (by omega)]
    have := (pieceMid_bounds n h10 (by omega)).2; linarith
  · rw [score_spec_eval_high n h30]
    exact (pieceHigh_bounds n h30).2

lemma score_spec_step (n : ℕ) : score_spec n ≤ score_spec (n + 1) := by
  rcases Nat.lt_or_ge n 1 with h | h
  · interval_cases n
    rw [score_spec_eval_zero, score_spec_eval_low 1 le_rfl (by omega)]
    unfold pieceLow; norm_num
  rcases Nat.lt_or_ge n 10 with h10 | h10
  · rw [score_spec_eval_low n h (by omega),
      score_spec_eval_low (n + 1) (by omega) (by omega)]
    unfold pieceLow; push_cast; linarith
  rcases Nat.eq_or_lt_of_le h10 with h10e | h10s
  · rw [score_spec_eval_low n h (by omega),
      score_spec_eval_mid (n + 1) (by omega) (by omega)]
    have := pieceLow_le n (by omega)
    have := (pieceMid_bounds (n + 1) (by omega) (by omega)).1
    linarith
  rcases Nat.lt_or_ge n 30 with h30 | h30
  · rw [score_spec_eval_mid n (by omega) (by omega),
      score_spec_eval_mid (n + 1) (by omega) (by omega)]
    unfold pieceMid; push_cast; linarith
  rcases Nat.eq_or_lt_of_le h30 with h30e | h30s
  · rw [score_spec_eval_mid n (by omega) (by omega),
      score_spec_eval_high (n + 1) (by omega)]
    have := (pieceMid_bounds n (by omega) (by omega)).2
    have := (pieceHigh_bounds (n + 1) (by omega)).1
    linarith
  · rw [score_spec_eval_high n (by omega), score_spec_eval_high (n + 1) (by omega)]
    unfold pieceHigh
    apply min_le_min _ le_rfl
    push_cast; linarith

lemma score_spec_mono : Monotone score_spec :=
  monotone_nat_of_le_succ score_spec_step

/-- C1: for every anomaly count `n` and every image size, the score computed
by `_calculate_criticality` equals the spec's piecewise formula: `0.0` at
`n = 0`; `0.05 + 0.03 * n` for `1 ≤ n ≤ 10`; `0.4 + 0.015 * (n - 10)` for
`11 ≤ n ≤ 30`; `min(0.7 + 0.01 * (n - 30), 1.0)` for `n ≥ 31`. -/
theorem criticality_matches_spec_formula (n sz : ℕ) :
    calculate_criticality n sz = score_spec n :=
  calculate_criticality_eq_spec n sz

/-- C2: `get_criticality_level` returns `"high"` iff the score is `≥ 0.7`,
`"medium"` iff it lies in `[0.4, 0.7)`, `"low"` iff it is `< 0.4`; and at the
four probe points: `0.39 → "low"`, `0.4 → "medium"`, `0.69 → "medium"`,
`0.70 → "high"`. -/
theorem criticality_level_thresholds :
    (∀ s : ℚ,
      (get_criticality_level s = "high" ↔ 0.7 ≤ s) ∧
      (get_criticality_level s = "medium" ↔ 0.4 ≤ s ∧ s < 0.7) ∧
      (get_criticality_level s = "low" ↔ s < 0.4)) ∧
    get_criticality_level 0.39 = "low" ∧
    get_criticality_level 0.4 = "medium" ∧
    get_criticality_level 0.69 = "medium" ∧
    get_criticality_level 0.70 = "high" := by
  refine ⟨fun s => ?_, by norm_num [get_criticality_level],
    by norm_num [get_criticality_level], by norm_num [get_criticality_level],
    by norm_num [get_criticality_level]⟩
  unfold get_criticality_level
  split_ifs with h1 h2 <;> refine ⟨?_, ?_, ?_⟩ <;> simp_all <;> try linarith

/-- C7: for every anomaly count and image size the criticality score lies in
`[0, 1]`, and for every count `n ≥ 60` it equals exactly `1`. -/
theorem criticality_bounded_and_saturates (n sz : ℕ) :
    (0 ≤ calculate_criticality n sz ∧ calculate_criticality n sz ≤ 1) ∧
    (60 ≤ n → calculate_criticality n sz = 1) := by
  rw [calculate_criticality_eq_spec]
  refine ⟨⟨score_spec_nonneg n, score_spec_le_one n⟩, fun h60 => ?_⟩
  rw [score_spec_eval_high n (by omega)]
  unfold pieceHigh
  have : (60 : ℚ) ≤ (n : ℚ) := by exact_mod_cast h60
  rw [min_eq_right (by linarith)]
  norm_num

/-- Witness for C7 at the concrete count `n = 60`. -/
theorem criticality_bounded_and_saturates_witness :
    calculate_criticality 60 480000 = 1 ∧ 0 ≤ calculate_criticality 60 480000 :=
  ⟨(criticality_bounded_and_saturates 60 480000).2 (by norm_num),
   (criticality_bounded_and_saturates 60 480000).1.1⟩

/-- C10: `_calculate_criticality` never reads its `image_size` argument, so
the criticality score is a function of the anomaly count alone: any two image
sizes give the same score. -/
theorem criticality_ignores_image_size (n sz1 sz2 : ℕ) :
    calculate_criticality n sz1 = calculate_criticality n sz2 := rfl

/-- C3 counterexample: the claim asserts continuity of the piecewise score at
the boundaries `0/1`, `10/11` and `30/31`.  At the `10/11` boundary the two
adjacent linear pieces of the code's definition disagree (`0.35` versus
`0.4`) and the score itself jumps from `0.35` to `0.415`, so the function is
not continuous there (nor at `0/1`, where the pieces give `0` versus
`0.08`). -/
theorem criticality_boundary_jump :
    calculate_criticality 10 1 = 0.35 ∧
    calculate_criticality 11 1 = 0.415 ∧
    ¬ piecewiseContinuousAt pieceLow pieceMid 10 ∧
    ¬ piecewiseContinuousAt pieceZero pieceLow 0 := by
  refine ⟨?_, ?_, ?_, ?_⟩ <;>
    norm_num [calculate_criticality, piecewiseContinuousAt, pieceLow, pieceMid,
      pieceZero]

/-- C3 (amended): the criticality score is monotone non-decreasing in the
anomaly count (for any image sizes); on each range the score agrees with the
corresponding linear piece; and of the three breakpoint boundaries only
`30/31` is continuous — the adjacent pieces agree at `30` — while the
boundaries `0/1` and `10/11` are jump discontinuities (see the
counterexample). -/
theorem criticality_monotone_and_boundaries :
    (∀ n m sz1 sz2 : ℕ, n ≤ m →
      calculate_criticality n sz1 ≤ calculate_criticality m sz2) ∧
    (∀ sz : ℕ, calculate_criticality 0 sz = pieceZero 0) ∧
    (∀ n sz : ℕ, 1 ≤ n → n ≤ 10 → calculate_criticality n sz = pieceLow n) ∧
    (∀ n sz : ℕ, 11 ≤ n → n ≤ 30 → calculate_criticality n sz = pieceMid n) ∧
    (∀ n sz : ℕ, 31 ≤ n → calculate_criticality n sz = pieceHigh n) ∧
    piecewiseContinuousAt pieceMid pieceHigh 30 := by
  refine ⟨fun n m sz1 sz2 h => ?_, fun sz => rfl, fun n sz h1 h2 => ?_,
    fun n sz h1 h2 => ?_, fun n sz h => ?_, ?_⟩
  · rw [calculate_criticality_eq_spec, calculate_criticality_eq_spec]
    exact score_spec_mono h
  · rw [calculate_criticality_eq_spec, score_spec_eval_low n h1 h2]
  · rw [calculate_criticality_eq_spec, score_spec_eval_mid n h1 h2]
  · rw [calculate_criticality_eq_spec, score_spec_eval_high n h]
  · norm_num [piecewiseContinuousAt, pieceMid, pieceHigh]

/-- Witness for C3 at concrete counts: monotonicity applied at `3 ≤ 27` with
two different image sizes, and the piece evaluations applied at `5`, `20`
and `40`. -/
theorem criticality_monotone_and_boundaries_witness :
    calculate_criticality 3 100 ≤ calculate_criticality 27 9999 ∧
    calculate_criticality 5 1 = pieceLow 5 ∧
    calculate_criticality 20 1 = pieceMid 20 ∧
    calculate_criticality 40 1 = pieceHigh 40 :=
  ⟨criticality_monotone_and_boundaries.1 3 27 100 9999 (by norm_num),
   criticality_monotone_and_boundaries.2.2.1 5 1 (by norm_num) (by norm_num),
   criticality_monotone_and_boundaries.2.2.2.1 20 1 (by norm_num) (by norm_num),
   criticality_monotone_and_boundaries.2.2.2.2.1 40 1 (by norm_num)⟩

/-- C6 counterexample: the claim says `_generate_notes` returns the fixed
no-anomaly message whenever the anomaly count is `0`, for every pair
`(count, score)`.  At the pair `(0, 0.7)` the code's first branch fires and
the CRITICAL template (embedding the count `0`) is returned instead. -/
theorem generate_notes_zero_count_not_ok :
    generate_notes 0 0.7 = criticalNote 0 ∧ generate_notes 0 0.7 ≠ okNote := by
  constructor
  · norm_num [generate_notes]
  · norm_num [generate_notes, criticalNote, okNote]
    decide

/-- C6 (amended): `_generate_notes` returns one of exactly four fixed
templates, selected by the branch order of the code: the CRITICAL template
when `score ≥ 0.7`, the WARNING template when `0.4 ≤ score < 0.7`, the INFO
template when `score < 0.4` and `count > 0`, and the fixed no-anomaly
message exactly when `score < 0.4` and `count = 0`; the first three templates
embed the anomaly count. -/
theorem generate_notes_template_selection (n : ℕ) (s : ℚ) :
    (0.7 ≤ s → generate_notes n s = criticalNote n) ∧
    (0.4 ≤ s → s < 0.7 → generate_notes n s = warningNote n) ∧
    (s < 0.4 → 0 < n → generate_notes n s = infoNote n) ∧
    (s < 0.4 → n = 0 → generate_notes n s = okNote) := by
  refine ⟨fun h1 => ?_, fun h1 h2 => ?_, fun h1 h2 => ?_, fun h1 h2 => ?_⟩
  · rw [generate_notes, if_pos h1]
  · rw [generate_notes, if_neg (by linarith), if_pos h1]
  · rw [generate_notes, if_neg (by linarith), if_neg (by linarith), if_pos h2]
  · rw [generate_notes, if_neg (by linarith), if_neg (by linarith),
      if_neg (by omega)]

/-- Witness for C6 at the four concrete pairs `(35, 0.75)`, `(20, 0.55)`,
`(3, 0.14)` and `(0, 0.0)`. -/
theorem generate_notes_template_selection_witness :
    generate_notes 35 0.75 = criticalNote 35 ∧
    generate_notes 20 0.55 = warningNote 20 ∧
    generate_notes 3 0.14 = infoNote 3 ∧
    generate_notes 0 0.0 = okNote :=
  ⟨(generate_notes_template_selection 35 0.75).1 (by norm_num),
   (generate_notes_template_selection 20 0.55).2.1 (by norm_num) (by norm_num),
   (generate_notes_template_selection 3 0.14).2.2.1 (by norm_num) (by norm_num),
   (generate_notes_template_selection 0 0.0).2.2.2 (by norm_num) rfl⟩

/-- A contour: an ordered sequence of 2D integer points describing a closed
boundary (the point lists `cv2.findContours` returns). -/
abbrev Contour := List (ℤ × ℤ)

/-- The cyclic shoelace (Green formula) sum of a contour's vertex polygon:
`Σ (x_i * y_{i+1} - x_{i+1} * y_i)` with indices taken cyclically. -/
def shoelaceSum (c : Contour) : ℤ :=
  ((c.zip (c.rotate 1)).map fun pq => pq.1.1 * pq.2.2 - pq.2.1 * pq.1.2).sum

/-- Embedding of `cv2.contourArea`: the enclosed polygon area, i.e. the
absolute value of the shoelace sum halved (OpenCV computes exactly this
Green-formula area, not a perimeter length). -/
def contourArea (c : Contour) : ℚ := ((shoelaceSum c).natAbs : ℚ) / 2

/-- Embedding of `cv2.boundingRect`: the axis-aligned bounding rectangle
`(x, y, w, h)` of a contour's points, with inclusive pixel extents
(`w = xmax - xmin + 1`); `(0, 0, 0, 0)` on an empty point list. -/
def boundingRect : Contour → ℤ × ℤ × ℤ × ℤ
  | [] => (0, 0, 0, 0)
  | p :: ps =>
    let xs := (p :: ps).map Prod.fst
    let ys := (p :: ps).map Prod.snd
    let xmin := xs.foldl min p.1
    let xmax := xs.foldl max p.1
    let ymin := ys.foldl min p.2
    let ymax := ys.foldl max p.2
    (xmin, ymin, xmax - xmin + 1, ymax - ymin + 1)

/-- An anomaly as `_filter_anomalies` builds it: the dict
`{'contour': contour, 'area': area, 'bbox': (x, y, w, h)}`. -/
structure Anomaly where
  contour : Contour
  area : ℚ
  bbox : ℤ × ℤ × ℤ × ℤ
deriving DecidableEq, Repr

/-- The adjustable thresholds set by `RailwayDetector.__init__`
(`backend/detector.py`, lines 17-23). -/
structure RailwayDetector where
  canny_threshold1 : ℕ
  canny_threshold2 : ℕ
  min_contour_area : ℚ
  blur_kernel_size : ℕ
deriving DecidableEq, Repr

/-- The default detector exactly as `__init__` sets it: Canny thresholds
50/150, minimum contour area 100, blur kernel size 5. -/
def defaultDetector : RailwayDetector :=
  { canny_threshold1 := 50, canny_threshold2 := 150,
    min_contour_area := 100, blur_kernel_size := 5 }

/-- Embedding of `RailwayDetector._filter_anomalies`
(`backend/detector.py`, lines 123-139): walk the contour list in order and
keep a contour, as an `Anomaly` recording its area and bounding rectangle,
exactly when `area >= self.min_contour_area`. -/
def filter_anomalies (det : RailwayDetector) : List Contour → List Anomaly
  | [] => []
  | contour :: rest =>
    let area := contourArea contour
    if det.min_contour_area ≤ area then
      { contour := contour, area := area, bbox := boundingRect contour } ::
        filter_anomalies det rest
    else
      filter_anomalies det rest

lemma filter_anomalies_eq (det : RailwayDetector) :
    ∀ contours : List Contour,
      filter_anomalies det contours =
        (contours.filter fun c => det.min_contour_area ≤ contourArea c).map
          fun c => { contour := c, area := contourArea c, bbox := boundingRect c }
  | [] => rfl
  | c :: rest => by
    by_cases h : det.min_contour_area ≤ contourArea c <;>
      simp [filter_anomalies, List.filter_cons, h, filter_anomalies_eq det rest]

/-- C8: `_filter_anomalies` is exactly the area-threshold filter: its result
is the in-order list of input contours whose enclosed area is at least
`min_contour_area`, each packaged with that area and its axis-aligned
bounding rectangle; every retained anomaly has `area ≥ min_contour_area`,
and conversely every contour meeting the threshold is retained; the default
threshold is 100. -/
theorem filter_anomalies_area_threshold (det : RailwayDetector)
    (contours : List Contour) :
    filter_anomalies det contours =
      ((contours.filter fun c => det.min_contour_area ≤ contourArea c).map
        fun c => { contour := c, area := contourArea c,
                   bbox := boundingRect c }) ∧
    (∀ a ∈ filter_anomalies det contours,
      det.min_contour_area ≤ a.area ∧ a.area = contourArea a.contour ∧
      a.bbox = boundingRect a.contour ∧ a.contour ∈ contours) ∧
    (∀ c ∈ contours, det.min_contour_area ≤ contourArea c →
      ({ contour := c, area := contourArea c, bbox := boundingRect c } :
        Anomaly) ∈ filter_anomalies det contours) ∧
    defaultDetector.min_contour_area = 100 := by
  refine ⟨filter_anomalies_eq det contours, fun a ha => ?_, fun c hc harea => ?_,
    rfl⟩
  · rw [filter_anomalies_eq det contours] at ha
    simp only [List.mem_map, List.mem_filter, decide_eq_true_eq] at ha
    obtain ⟨c, ⟨hc, harea⟩, rfl⟩ := ha
    exact ⟨harea, rfl, rfl, hc⟩
  · rw [filter_anomalies_eq det contours]
    simp only [List.mem_map, List.mem_filter, decide_eq_true_eq]
    exact ⟨c, ⟨hc, harea⟩, rfl⟩

/-- A concrete 20×20 square contour (enclosed area 400). -/
def square20 : Contour := [(0, 0), (20, 0), (20, 20), (0, 20)]

/-- A concrete 3×3 noise-speck contour (enclosed area 9, below threshold). -/
def speck3 : Contour := [(0, 0), (3, 0), (3, 3), (0, 3)]

lemma contourArea_square20 : contourArea square20 = 400 := by
  have h : shoelaceSum square20 = 800 := rfl
  rw [contourArea, h]
  norm_num

lemma square20_meets_threshold :
    defaultDetector.min_contour_area ≤ contourArea square20 := by
  rw [contourArea_square20]
  norm_num [defaultDetector]

/-- The anomaly record `_filter_anomalies` builds for `square20`. -/
def squareAnomaly : Anomaly :=
  { contour := square20, area := contourArea square20,
    bbox := boundingRect square20 }

/-- Witness for C8 on the concrete contour list `[square20, speck3]` with the
default detector: the 400-area square is retained (with its area and
bounding box) and the retained anomaly meets the 100 threshold. -/
theorem filter_anomalies_area_threshold_witness :
    squareAnomaly ∈ filter_anomalies defaultDetector [square20, speck3] ∧
    (100 : ℚ) ≤ squareAnomaly.area :=
  ⟨(filter_anomalies_area_threshold defaultDetector [square20, speck3]).2.2.1
      square20 (by simp) square20_meets_threshold,
   ((filter_anomalies_area_threshold defaultDetector [square20, speck3]).2.1 _
      ((filter_anomalies_area_threshold defaultDetector
          [square20, speck3]).2.2.1 square20 (by simp) square20_meets_threshold)).1⟩

/-- A pixel: a BGR channel triple (OpenCV channel order), 8-bit values
modelled as naturals. -/
abbrev Pixel := ℕ × ℕ × ℕ

/-- A decoded image buffer: height × width of pixels, the pixel contents
given by the `data` field. -/
structure Image where
  height : ℕ
  width : ℕ
  data : ℕ → ℕ → Pixel

/-- Embedding of `numpy.ndarray.copy` as used in `image.copy()`
(`backend/detector.py`, line 54): a fresh buffer with the same dimensions
and the same pixel contents. -/
def copyImage (img : Image) : Image :=
  { height := img.height, width := img.width, data := fun x y => img.data x y }

/-- Modelled from the spec: the OpenCV primitives the detector calls
(`cv2.cvtColor`, `cv2.GaussianBlur`, `cv2.Canny`, `cv2.findContours`,
`cv2.rectangle`, `cv2.putText`) are library code outside this repository;
the spec (§1-2) treats the CV library as an external collaborator.  They are
modelled as an explicit bundle of functions the pipeline is parameterized
over.  The two drawing primitives mutate a buffer in place: in-place drawing
can change only the pixel contents, never the numpy buffer's shape, so they
are modelled as transformers of the pixel-`data` field alone (glyph and
stroke rasterization patterns are library-internal and left arbitrary). -/
structure CVLib where
  cvtColorGray : Image → Image
  gaussianBlur : ℕ → Image → Image
  canny : ℕ → ℕ → Image → Image
  findContours : Image → List Contour
  rectPixels : ℤ × ℤ → ℤ × ℤ → Pixel → ℕ → (ℕ → ℕ → Pixel) → ℕ → ℕ → Pixel
  textPixels : String → ℤ × ℤ → Pixel → (ℕ → ℕ → Pixel) → ℕ → ℕ → Pixel

/-- `cv2.rectangle(image, pt1, pt2, color, thickness)`: in-place draw,
modelled as an update of the pixel data only. -/
def cvRectangle (cv : CVLib) (img : Image) (pt1 pt2 : ℤ × ℤ) (color : Pixel)
    (thickness : ℕ) : Image :=
  { img with data := cv.rectPixels pt1 pt2 color thickness img.data }

/-- `cv2.putText(image, text, org, font, scale, color, thickness)`: in-place
draw, modelled as an update of the pixel data only (font parameters are
fixed in the source and absorbed into the model). -/
def cvPutText (cv : CVLib) (img : Image) (text : String) (org : ℤ × ℤ)
    (color : Pixel) : Image :=
  { img with data := cv.textPixels text org color img.data }

/-- Embedding of `RailwayDetector._annotate_image`
(`backend/detector.py`, lines 141-176): for each anomaly, 1-indexed in list
order, draw its bounding rectangle in red (BGR `(0,0,255)`, thickness 2) and
a `#<index>` label just above its top-left corner; then draw the green
summary banner `"Anomalies detectees: <count>"` at `(10, 30)`; return the
buffer that was drawn on. -/
def annotate_image (cv : CVLib) (image : Image) (anomalies : List Anomaly) :
    Image :=
  let withBoxes := anomalies.enum.foldl (fun img ia =>
    let (x, y, w, h) := ia.2.bbox
    let img1 := cvRectangle cv img (x, y) (x + w, y + h) (0, 0, 255) 2
    cvPutText cv img1 ("#" ++ toString (ia.1 + 1)) (x, y - 10) (0, 0, 255))
    image
  cvPutText cv withBoxes ("Anomalies detectees: " ++ toString anomalies.length)
    (10, 30) (0, 255, 0)

/-- The Python exceptions `process_image` can raise, together with the two
error names the spec's taxonomy uses (§6, §7).  `ImageReadError` and
`AnnotationWriteError` appear nowhere in the source; they are included as
constructors so that claims naming them can be stated and settled. -/
inductive PyError where
  | FileNotFoundError (msg : String)
  | ValueError (msg : String)
  | ImageReadError
  | AnnotationWriteError
deriving DecidableEq, Repr

/-- The filesystem/decoder environment of one `process_image` call:
`os.path.exists`, `cv2.imread` (`none` when the bytes cannot be decoded) and
the success flag `cv2.imwrite` returns (`false` when the disk write fails
without raising). -/
structure FileSystem where
  pathExists : String → Bool
  imread : String → Option Image
  imwriteOk : String → Bool

/-- Embedding of `os.path.splitext`: split off the extension beginning at
the last dot of the final path component; no dot means an empty extension. -/
def splitext (p : String) : String × String :=
  let rev := p.toList.reverse
  let extRev := rev.takeWhile fun c => c ≠ '.'
  if extRev.length = rev.length ∨ extRev.contains '/' then (p, "")
  else ((rev.drop (extRev.length + 1)).reverse.asString,
        ('.' :: extRev.reverse).asString)

/-- The derived output path of `process_image`
(`backend/detector.py`, lines 59-60): insert `_annotated` between base and
extension. -/
def annotatedPath (image_path : String) : String :=
  let (base, ext) := splitext image_path
  base ++ "_annotated" ++ ext

/-- The value `process_image` returns: the fields of the result dict
(`processing_time` is wall-clock time, outside the model), plus the final
states of the two image buffers of the call — `image`, the buffer decoded
from the input file as it stands when the call returns, and `annotated`,
the buffer the annotations were drawn on — so that frame conditions can be
stated. -/
structure AnalysisOutcome where
  anomalies_count : ℕ
  criticality_score : ℚ
  annotated_image_path : String
  width : ℕ
  height : ℕ
  notes : String
  image : Image
  annotated : Image

/-- Embedding of `RailwayDetector.process_image`
(`backend/detector.py`, lines 25-81).  Returns the call's outcome (normal
result or raised exception) paired with the list of files the call created
on disk: the source calls `cv2.imwrite` without inspecting its return value,
so a failed write leaves no file and raises nothing.  The annotation is
drawn on `image.copy()`; the decoded buffer `image` itself is used afterwards
for the score's `image_size` and for the returned dimensions. -/
def process_image (cv : CVLib) (fs : FileSystem) (det : RailwayDetector)
    (image_path : String) :
    Except PyError AnalysisOutcome × List (String × Image) :=
  if fs.pathExists image_path = false then
    (.error (.FileNotFoundError ("Image not found: " ++ image_path)), [])
  else
    match fs.imread image_path with
    | none => (.error (.ValueError ("Cannot read image: " ++ image_path)), [])
    | some image =>
      let gray := cv.cvtColorGray image
      let blurred := cv.gaussianBlur det.blur_kernel_size gray
      let edges := cv.canny det.canny_threshold1 det.canny_threshold2 blurred
      let contours := cv.findContours edges
      let anomalies := filter_anomalies det contours
      let annotated_image := annotate_image cv (copyImage image) anomalies
      let annotated_path := annotatedPath image_path
      let written := if fs.imwriteOk annotated_path
        then [(annotated_path, annotated_image)] else []
      let criticality_score := calculate_criticality anomalies.length
        (image.height * image.width)
      (.ok { anomalies_count := anomalies.length,
             criticality_score := criticality_score,
             annotated_image_path := annotated_path,
             width := image.width,
             height := image.height,
             notes := generate_notes anomalies.length criticality_score,
             image := image,
             annotated := annotated_image }, written)

/-- The inspection fields `upload_inspection` persists
(`backend/app.py`, lines 197-209). -/
structure InspectionRecord where
  status : String
  anomalies_count : ℕ
  criticality_score : ℚ
  notes : String
deriving DecidableEq, Repr

/-- Embedding of the analysis-and-persist core of `upload_inspection`
(`backend/app.py`, lines 188-212): if `process_image` raises, the uploaded
file is removed and `ProcessingError` propagates — nothing is persisted
(`none`); if it returns normally, an `Inspection` with status `"completed"`
is built from the result fields and saved. -/
def upload_inspection (cv : CVLib) (fs : FileSystem) (det : RailwayDetector)
    (filepath : String) : Option InspectionRecord :=
  match (process_image cv fs det filepath).1 with
  | .error _ => none
  | .ok r => some { status := "completed",
                    anomalies_count := r.anomalies_count,
                    criticality_score := r.criticality_score,
                    notes := r.notes }

lemma foldl_height_invariant {α : Type} (f : Image → α → Image)
    (hf : ∀ i a, (f i a).height = i.height) :
    ∀ (l : List α) (i : Image), (l.foldl f i).height = i.height := by
  intro l
  induction l with
  | nil => intro i; rfl
  | cons a l ih => intro i; rw [List.foldl_cons, ih, hf]

lemma foldl_width_invariant {α : Type} (f : Image → α → Image)
    (hf : ∀ i a, (f i a).width = i.width) :
    ∀ (l : List α) (i : Image), (l.foldl f i).width = i.width := by
  intro l
  induction l with
  | nil => intro i; rfl
  | cons a l ih => intro i; rw [List.foldl_cons, ih, hf]

lemma annotate_image_height (cv : CVLib) (img : Image) (l : List Anomaly) :
    (annotate_image cv img l).height = img.height := by
  unfold annotate_image
  show (List.foldl _ img l.enum).height = img.height
  apply foldl_height_invariant
  intro i a
  rfl

lemma annotate_image_width (cv : CVLib) (img : Image) (l : List Anomaly) :
    (annotate_image cv img l).width = img.width := by
  unfold annotate_image
  show (List.foldl _ img l.enum).width = img.width
  apply foldl_width_invariant
  intro i a
  rfl

/-- The outcome record `process_image` returns on the success path, named so
that the success case can be stated as a rewrite equation. -/
def successOutcome (cv : CVLib) (det : RailwayDetector) (p : String)
    (img : Image) : AnalysisOutcome :=
  let contours := cv.findContours (cv.canny det.canny_threshold1
    det.canny_threshold2 (cv.gaussianBlur det.blur_kernel_size
      (cv.cvtColorGray img)))
  let anomalies := filter_anomalies det contours
  let score := calculate_criticality anomalies.length (img.height * img.width)
  { anomalies_count := anomalies.length,
    criticality_score := score,
    annotated_image_path := annotatedPath p,
    width := img.width,
    height := img.height,
    notes := generate_notes anomalies.length score,
    image := img,
    annotated := annotate_image cv (copyImage img) anomalies }

lemma process_image_success (cv : CVLib) (fs : FileSystem)
    (det : RailwayDetector) (p : String) (img : Image)
    (hex : fs.pathExists p = true) (hrd : fs.imread p = some img) :
    process_image cv fs det p =
      (.ok (successOutcome cv det p img),
       if fs.imwriteOk (annotatedPath p)
       then [(annotatedPath p, (successOutcome cv det p img).annotated)]
       else []) := by
  unfold process_image successOutcome
  rw [hex, hrd]
  simp

lemma successOutcome_image (cv : CVLib) (det : RailwayDetector) (p : String)
    (img : Image) : (successOutcome cv det p img).image = img := rfl

lemma successOutcome_annotated_height (cv : CVLib) (det : RailwayDetector)
    (p : String) (img : Image) :
    (successOutcome cv det p img).annotated.height = img.height := by
  show (annotate_image cv (copyImage img) _).height = img.height
  rw [annotate_image_height]
  rfl

lemma successOutcome_annotated_width (cv : CVLib) (det : RailwayDetector)
    (p : String) (img : Image) :
    (successOutcome cv det p img).annotated.width = img.width := by
  show (annotate_image cv (copyImage img) _).width = img.width
  rw [annotate_image_width]
  rfl

/-- C5 (amended): calling `process_image` on a path that does not exist
raises `FileNotFoundError` (not the spec's `ImageReadError`, which the code
does not define), calling it on a file whose bytes cannot be decoded raises
`ValueError`, and in both cases no output file is produced (the write-file
list of the call is empty). -/
theorem process_image_read_failure (cv : CVLib) (fs : FileSystem)
    (det : RailwayDetector) (p : String) :
    (fs.pathExists p = false →
      process_image cv fs det p =
        (.error (.FileNotFoundError ("Image not found: " ++ p)), [])) ∧
    (fs.pathExists p = true → fs.imread p = none →
      process_image cv fs det p =
        (.error (.ValueError ("Cannot read image: " ++ p)), [])) := by
  constructor
  · intro h
    simp [process_image, h]
  · intro h hr
    simp [process_image, h, hr]

/-- A filesystem in which no path exists. -/
def noFileFS : FileSystem :=
  { pathExists := fun _ => false, imread := fun _ => none,
    imwriteOk := fun _ => true }

/-- A filesystem in which every path exists but no bytes decode as an
image (`cv2.imread` returns `None`). -/
def undecodableFS : FileSystem :=
  { pathExists := fun _ => true, imread := fun _ => none,
    imwriteOk := fun _ => true }

/-- A CV library instance with identity transforms and no contours, used to
instantiate witnesses at concrete inputs. -/
def idCVLib : CVLib :=
  { cvtColorGray := fun i => i, gaussianBlur := fun _ i => i,
    canny := fun _ _ i => i, findContours := fun _ => [],
    rectPixels := fun _ _ _ _ d => d, textPixels := fun _ _ _ d => d }

/-- A concrete 4×4 uniform gray image. -/
def blankImage : Image :=
  { height := 4, width := 4, data := fun _ _ => (200, 200, 200) }

/-- A filesystem in which every path exists, every read decodes to
`blankImage`, and every disk write fails (`cv2.imwrite` returns `False`). -/
def noWriteFS : FileSystem :=
  { pathExists := fun _ => true, imread := fun _ => some blankImage,
    imwriteOk := fun _ => false }

/-- Witness for C5 at the concrete paths `"a.jpg"` (nonexistent) and
`"b.png"` (existing but undecodable). -/
theorem process_image_read_failure_witness :
    process_image idCVLib noFileFS defaultDetector "a.jpg" =
      (.error (.FileNotFoundError "Image not found: a.jpg"), []) ∧
    process_image idCVLib undecodableFS defaultDetector "b.png" =
      (.error (.ValueError "Cannot read image: b.png"), []) :=
  ⟨(process_image_read_failure idCVLib noFileFS defaultDetector "a.jpg").1 rfl,
   (process_image_read_failure idCVLib undecodableFS defaultDetector
      "b.png").2 rfl rfl⟩

/-- C5 counterexample: on a nonexistent path the exception `process_image`
raises is `FileNotFoundError("Image not found: ...")` — not the
`ImageReadError` the claim names (the source has no such exception type) —
though indeed no output file is produced. -/
theorem missing_path_raises_file_not_found_not_image_read :
    (process_image idCVLib noFileFS defaultDetector "missing.jpg").1 =
      .error (.FileNotFoundError "Image not found: missing.jpg") ∧
    (process_image idCVLib noFileFS defaultDetector "missing.jpg").1 ≠
      .error .ImageReadError ∧
    (process_image idCVLib noFileFS defaultDetector "missing.jpg").2 = [] := by
  have h1 : (process_image idCVLib noFileFS defaultDetector "missing.jpg").1 =
      .error (.FileNotFoundError "Image not found: missing.jpg") := rfl
  refine ⟨h1, fun hcontra => ?_, rfl⟩
  rw [h1] at hcontra
  exact PyError.noConfusion (Except.error.inj hcontra)

/-- C4 (amended): the source never inspects the value `cv2.imwrite` returns,
so when the write of the annotated image fails, `process_image` does not
fail — it returns a normal `AnalysisResult` (with no file on disk) and the
upstream upload handler persists an inspection record anyway. -/
theorem process_image_ignores_write_failure (cv : CVLib) (fs : FileSystem)
    (det : RailwayDetector) (p : String) (img : Image)
    (hex : fs.pathExists p = true) (hrd : fs.imread p = some img)
    (hw : fs.imwriteOk (annotatedPath p) = false) :
    (∃ r, (process_image cv fs det p).1 = .ok r) ∧
    (process_image cv fs det p).2 = [] ∧
    (upload_inspection cv fs det p).isSome = true := by
  have hmain := process_image_success cv fs det p img hex hrd
  refine ⟨⟨successOutcome cv det p img, by rw [hmain]⟩, ?_, ?_⟩
  · rw [hmain]
    simp [hw]
  · unfold upload_inspection
    rw [hmain]
    rfl

/-- Witness for C4 at a concrete call: `noWriteFS` decodes every read to
`blankImage` and fails every disk write. -/
theorem process_image_ignores_write_failure_witness :
    (∃ r, (process_image idCVLib noWriteFS defaultDetector "photo.jpg").1 =
      .ok r) ∧
    (process_image idCVLib noWriteFS defaultDetector "photo.jpg").2 = [] ∧
    (upload_inspection idCVLib noWriteFS defaultDetector "photo.jpg").isSome =
      true :=
  process_image_ignores_write_failure idCVLib noWriteFS defaultDetector
    "photo.jpg" blankImage rfl rfl rfl

/-- C4 counterexample: at a concrete call in which the annotated-image write
fails, the pipeline neither raises `AnnotationWriteError` (which the source
does not define) nor any other error: it returns a normal result, no file is
written, and an inspection record is still persisted upstream. -/
theorem write_failure_returns_normal_result :
    (∃ r, (process_image idCVLib noWriteFS defaultDetector "rail.png").1 =
      .ok r) ∧
    (∀ e : PyError,
      (process_image idCVLib noWriteFS defaultDetector "rail.png").1 ≠
        .error e) ∧
    (process_image idCVLib noWriteFS defaultDetector "rail.png").2 = [] ∧
    (upload_inspection idCVLib noWriteFS defaultDetector "rail.png").isSome =
      true := by
  obtain ⟨r, hr⟩ := (process_image_ignores_write_failure idCVLib noWriteFS
    defaultDetector "rail.png" blankImage rfl rfl rfl).1
  refine ⟨⟨r, hr⟩, fun e hcontra => ?_, rfl, rfl⟩
  rw [hr] at hcontra
  exact Except.noConfusion hcontra

/-- C9: when `process_image` succeeds on a decoded image, the annotations
are drawn on a copy — the buffer decoded from the input file is returned
unchanged in the outcome — and the annotated buffer is a new image of the
same dimensions as the input. -/
theorem annotate_on_copy_preserves_original (cv : CVLib) (fs : FileSystem)
    (det : RailwayDetector) (p : String) (img : Image)
    (hex : fs.pathExists p = true) (hrd : fs.imread p = some img) :
    ∃ r, (process_image cv fs det p).1 = .ok r ∧
      r.image = img ∧
      r.annotated.height = img.height ∧
      r.annotated.width = img.width ∧
      r.height = img.height ∧ r.width = img.width := by
  refine ⟨successOutcome cv det p img,
    by rw [process_image_success cv fs det p img hex hrd],
    successOutcome_image cv det p img,
    successOutcome_annotated_height cv det p img,
    successOutcome_annotated_width cv det p img, rfl, rfl⟩

/-- Witness for C9 at a concrete call decoding to the 4×4 `blankImage`. -/
theorem annotate_on_copy_preserves_original_witness :
    ∃ r, (process_image idCVLib noWriteFS defaultDetector "w.png").1 =
        .ok r ∧
      r.image = blankImage ∧
      r.annotated.height = blankImage.height ∧
      r.annotated.width = blankImage.width ∧
      r.height = blankImage.height ∧ r.width = blankImage.width :=
  annotate_on_copy_preserves_original idCVLib noWriteFS defaultDetector
    "w.png" blankImage rfl rfl
